import Mathlib

/-!
Shallow embedding of the certificate-distribution platform's
request-admission and audit subsystem (`app/security.py`,
`app/csv_handler.py`, `app/certificate_generator.py`, `app/main.py`).

Machine conventions:
* clock readings (`time.time()`, `datetime.now()`) are modelled as `Int`
  seconds; only `+`, `-` and comparisons are applied to them in the source,
  so the ordered-ring structure of `Int` is a faithful abstraction;
* Python `dict`s are modelled as functional maps `String → Option _`
  (respectively `String → List Int` for the rate limiter's
  `defaultdict(list)`, whose missing-key default is `[]`);
* the daily JSON audit-log file is modelled as `Option (List LogEntry)`:
  `none` is a missing (or unreadable) store, `some logs` its parsed content;
* `datetime.fromisoformat` is an external library routine; it is
  modelled by an arbitrary parameter `parseTs : String → Option Int`
  (`none` = the `ValueError` it raises on a malformed string);
* a Python exception escaping a computation is modelled by an `Option`
  result being `none`.
-/

namespace CertPlatform

/-- One audit-log record, as built by `RequestLogger.log_request`
(`app/security.py`, lines 131-139). All fields are strings in the JSON file. -/
structure LogEntry where
  timestamp : String
  ip_address : String
  endpoint : String
  name : String
  id : String
  status : String
  reason : String
deriving Repr, DecidableEq

/-- The CSRF token map `CSRFTokenManager.tokens : Dict[str, float]`:
token ↦ issuance time. -/
def TokenMap : Type := String → Option Int

/-- The rate limiter's `requests : Dict[str, list]` (a `defaultdict(list)`):
key ↦ list of accepted-request timestamps; a missing key reads as `[]`. -/
def RateMap : Type := String → List Int

/-- Point update of a functional map (a Python `dict` assignment). -/
def updateMap {β : Type} (m : String → β) (k : String) (v : β) : String → β :=
  fun k' => if k' = k then v else m k'

/-- Deletion from a token map (`del self.tokens[token]`). -/
def deleteTok (m : TokenMap) (k : String) : TokenMap :=
  fun k' => if k' = k then none else m k'

/-! ## RateLimiter (`app/security.py`, lines 17-60) -/

/-- The list-comprehension prune in `RateLimiter.is_allowed` (lines 47-50):
keep `req_time` with `now - req_time < window_seconds`. -/
def pruneWindow (window_seconds : Int) (now : Int) (l : List Int) : List Int :=
  l.filter (fun req_time => now - req_time < window_seconds)

/-- Embedding of `RateLimiter.is_allowed` (lines 32-60): prune the key's timestamps, reject
with `(False, 0)` when `max_requests` survive, else record `now` and return
the remaining quota. The returned `RateMap` is the post-call `self.requests`. -/
def is_allowed (max_requests : Nat) (window_seconds : Int)
    (requests : RateMap) (ip_address endpoint : String) (now : Int) :
    Bool × Nat × RateMap :=
  let key := ip_address ++ ":" ++ endpoint
  let pruned := pruneWindow window_seconds now (requests key)
  if pruned.length ≥ max_requests then
    (false, 0, updateMap requests key pruned)
  else
    let recorded := pruned ++ [now]
    (true, max_requests - recorded.length, updateMap requests key recorded)

/-! ## CSRFTokenManager (`app/security.py`, lines 63-99) -/

/-- Embedding of `CSRFTokenManager.generate_token` (lines 72-76) with the random token
and the clock made explicit: `self.tokens[token] = time.time()`. -/
def generate_token (tokens : TokenMap) (token : String) (now : Int) : TokenMap :=
  updateMap tokens token (some now)

/-- Embedding of `CSRFTokenManager.validate_token` (lines 78-99): unknown → `False`;
known but older than `max_age` → delete, `False`; otherwise delete
(single use) and `True`. Returns the result and the post-call map. -/
def validate_token (tokens : TokenMap) (token : String) (now : Int)
    (max_age : Int) : Bool × TokenMap :=
  match tokens token with
  | none => (false, tokens)
  | some issued_at =>
    let token_age := now - issued_at
    if token_age > max_age then
      (false, deleteTok tokens token)
    else
      (true, deleteTok tokens token)

/-! ## RequestLogger (`app/security.py`, lines 102-180) -/

/-- Embedding of `RequestLogger.log_request` (lines 111-153): read the day's store
(missing or corrupt → `[]`), append the fresh entry, write back.
`nowIso` is the captured `datetime.now().isoformat()` string. -/
def log_request (store : Option (List LogEntry))
    (nowIso ip_address endpoint name id_value status reason : String) :
    Option (List LogEntry) :=
  let logs := store.getD []
  some (logs ++ [{ timestamp := nowIso, ip_address := ip_address,
                   endpoint := endpoint, name := name, id := id_value,
                   status := status, reason := reason }])

/-- Lexicographic (code-point) strict order on character lists: Python's
`<` on strings, which orders equal-format ISO timestamps chronologically. -/
def lexLt : List Char → List Char → Bool
  | [], [] => false
  | [], _ :: _ => true
  | _ :: _, [] => false
  | a :: as, b :: bs => if a < b then true else if b < a then false else lexLt as bs

/-- Strict comparison of two entries' timestamp keys. -/
def tsLt (x e : LogEntry) : Bool := lexLt x.timestamp.toList e.timestamp.toList

/-- Python's `sorted(..., key=..., reverse=True)` is a stable sort; ties on
the key keep their original order. `insertDesc` walks past the heads whose
key is strictly greater and places `e` before the first entry whose key is
less than or equal — in `sortDescByTs` below `e` is inserted into the sorted
suffix of originally-later entries, so `e` lands before entries with an
equal timestamp, preserving the original order among ties. -/
def insertDesc (e : LogEntry) : List LogEntry → List LogEntry
  | [] => [e]
  | x :: xs =>
    if tsLt e x then x :: insertDesc e xs
    else e :: x :: xs

/-- Stable descending sort on the `timestamp` key: the embedding of
`sorted(logs, key=lambda x: x.get('timestamp', ''), reverse=True)`
(`app/security.py`, line 180). Any two stable sorts under the same key
agree, so this insertion sort is extensionally the library sort. -/
def sortDescByTs : List LogEntry → List LogEntry
  | [] => []
  | x :: xs => insertDesc x (sortDescByTs xs)

/-- Embedding of `RequestLogger.get_logs` (lines 155-180): missing/corrupt store → `[]`;
else filter by IP when given, sort most-recent-first, cap at `limit`. -/
def get_logs (store : Option (List LogEntry)) (ip_address : Option String)
    (limit : Nat) : List LogEntry :=
  match store with
  | none => []
  | some logs =>
    let logs := match ip_address with
      | some ip => logs.filter (fun log => log.ip_address = ip)
      | none => logs
    (sortDescByTs logs).take limit

/-! ## FraudDetector (`app/security.py`, lines 183-225) -/

/-- The verdict dictionary returned by
`FraudDetector.check_suspicious_activity` (lines 216-224). -/
structure Verdict where
  ip : String
  recent_requests : Nat
  failed_attempts : Nat
  successful_downloads : Nat
  suspicious : Bool
  reason : String
deriving Repr, DecidableEq

/-- The list comprehension at lines 208-211, which evaluates
`datetime.fromisoformat(log['timestamp'])` on every element and keeps `log`
when `(ts - now).total_seconds() < window_minutes * 60`. A parse failure
(`parseTs _ = none`) raises, aborting the whole comprehension (`none`). -/
def filterRecent (parseTs : String → Option Int) (now : Int)
    (window_minutes : Int) : List LogEntry → Option (List LogEntry)
  | [] => some []
  | log :: rest =>
    match parseTs log.timestamp with
    | none => none
    | some ts =>
      match filterRecent parseTs now window_minutes rest with
      | none => none
      | some recent =>
        some (if ts - now < window_minutes * 60 then log :: recent else recent)

/-- Embedding of `FraudDetector.check_suspicious_activity` (lines 195-225): pull up to
1000 entries for the IP, filter by the comprehension above, count outcomes,
flag `failed > 5 or success > 3`. `none` models the uncaught `ValueError`
escaping the method. -/
def check_suspicious_activity (parseTs : String → Option Int) (now : Int)
    (store : Option (List LogEntry)) (ip_address : String)
    (window_minutes : Int) : Option Verdict :=
  let logs := get_logs store (some ip_address) 1000
  match filterRecent parseTs now window_minutes logs with
  | none => none
  | some recent_logs =>
    let failed_attempts := (recent_logs.filter (fun log => log.status = "failed")).length
    let success_count := (recent_logs.filter (fun log => log.status = "success")).length
    some { ip := ip_address
           recent_requests := recent_logs.length
           failed_attempts := failed_attempts
           successful_downloads := success_count
           suspicious := decide (failed_attempts > 5) || decide (success_count > 3)
           reason :=
             if failed_attempts > 5 then "Multiple failed attempts"
             else if success_count > 3 then "Too many successful downloads in short time"
             else "Normal" }

/-! ## CSVHandler (`app/csv_handler.py`) -/

/-- A canonical roster record as produced by `CSVHandler.normalize_student`
(`app/csv_handler.py`, lines 62-70): the fields consumed by the endpoints. -/
structure Student where
  name : String
  student_id : String
  email : String
  course : String
deriving Repr, DecidableEq

/-- Python `str.isalnum()` restricted to ASCII (every string the claims touch
is ASCII, where `Char.isAlpha`/`Char.isDigit` coincide with Python). -/
def pyIsAlnum (c : Char) : Bool := c.isAlpha || c.isDigit

/-- Python `str.strip()`: drop leading and trailing whitespace. Implemented
structurally over the character list so it evaluates in the kernel. -/
def pyStrip (s : String) : String :=
  (((s.toList.dropWhile Char.isWhitespace).reverse.dropWhile
      Char.isWhitespace).reverse).asString

/-- Python `str.lower()` on ASCII text. -/
def pyToLower (s : String) : String := (s.toList.map Char.toLower).asString

/-- Worker for Python `str.split()`: accumulate the current word (reversed)
and break on whitespace runs. -/
def pySplitAux : List Char → List Char → List (List Char)
  | [], acc => if acc.isEmpty then [] else [acc.reverse]
  | c :: cs, acc =>
    if c.isWhitespace then
      if acc.isEmpty then pySplitAux cs [] else acc.reverse :: pySplitAux cs []
    else pySplitAux cs (c :: acc)

/-- Python `str.split()` with no argument: split on whitespace runs,
discarding empties. -/
def pySplit (s : String) : List String :=
  (pySplitAux s.toList []).map List.asString

/-- Python `" ".join(ws)`. -/
def pyJoinSpace : List String → String
  | [] => ""
  | [w] => w
  | w :: ws => w ++ " " ++ pyJoinSpace ws

/-- Embedding of `CSVHandler._normalize_name` (lines 52-55):
`" ".join((value or "").strip().lower().split())`. -/
def normalize_name (value : String) : String :=
  pyJoinSpace (pySplit (pyToLower (pyStrip value)))

/-- Embedding of `CSVHandler._normalize_student_id` (lines 57-60): `(value or "").strip()`. -/
def normalize_student_id (value : String) : String := pyStrip value

/-- Embedding of `CSVHandler.find_student_by_name_and_id` (lines 114-139) over an already
parsed roster (the CSV read is the roster-lookup collaborator's store):
first row matching both the normalized name and the normalized ID. -/
def find_student_by_name_and_id (students : List Student)
    (name student_id : String) : Option Student :=
  students.find? (fun student =>
    normalize_name student.name = normalize_name name ∧
    normalize_student_id student.student_id = normalize_student_id student_id)

/-- The sanitization inside `CSVHandler.generate_certificate_id`
(lines 154-156): drop every character that is neither alphanumeric nor a
space, strip, then turn the remaining spaces into underscores. -/
def sanitizeName (student_name : String) : String :=
  let filtered := (student_name.toList.filter
    (fun c => pyIsAlnum c || c = ' ')).asString
  ((pyStrip filtered).toList.map (fun c => if c = ' ' then '_' else c)).asString

/-- Embedding of `CSVHandler.generate_certificate_id` (lines 141-162). `student_name` is
`Option String` (Python default `None`); the `if student_name:` truthiness
test is `≠ none` and `≠ ""`. `prefix_env` is `os.getenv("CERTIFICATE_ID_PREFIX",
"CERT")`. -/
def generate_certificate_id (prefix_env : String) (student_id : String)
    (student_name : Option String) : String :=
  match student_name with
  | some n =>
    if n ≠ "" then
      let sanitized := sanitizeName n
      if sanitized ≠ "" then sanitized
      else prefix_env ++ "-" ++ student_id
    else prefix_env ++ "-" ++ student_id
  | none => prefix_env ++ "-" ++ student_id

/-- Embedding of `CSVHandler.generate_management_certificate_id` (lines 257-278): same
sanitization, different fallback prefix
(`os.getenv("MANAGEMENT_CERT_ID_PREFIX", "CERT-MGMT")`). -/
def generate_management_certificate_id (prefix_env : String) (mgmt_id : String)
    (person_name : Option String) : String :=
  match person_name with
  | some n =>
    if n ≠ "" then
      let sanitized := sanitizeName n
      if sanitized ≠ "" then sanitized
      else prefix_env ++ "-" ++ mgmt_id
    else prefix_env ++ "-" ++ mgmt_id
  | none => prefix_env ++ "-" ++ mgmt_id

/-! ## CertificateGenerator (`app/certificate_generator.py`)

The filesystem of rendered PDFs is modelled as the list of certificate ids
whose `<id>.pdf` exists under `output_dir`. Rendering itself (Pillow) is
the external renderer collaborator: `generate_certificate` adds the id to
the filesystem and is recorded in a `rendered` trace. -/

/-- Embedding of `CertificateGenerator.get_certificate_path` (lines 162-175):
`os.path.join(self.output_dir, f"{certificate_id}.pdf")`. -/
def get_certificate_path (output_dir certificate_id : String) : String :=
  output_dir ++ "/" ++ certificate_id ++ ".pdf"

/-- Embedding of `CertificateGenerator.certificate_exists` (lines 146-160):
`os.path.exists` over the modelled filesystem. -/
def certificate_exists (fs : List String) (certificate_id : String) : Bool :=
  fs.contains certificate_id

/-! ## FastAPI endpoints (`app/main.py`)

`main.py` wires the components with `RateLimiter(max_requests=5,
window_seconds=60)` (line 78) and default token `max_age=3600`. An
uncaught exception inside a handler surfaces as a 500 server error. -/

/-- The observable HTTP outcome of an endpoint call. -/
inductive Response
  | tooManyRequests                      -- HTTPException 429
  | forbidden                            -- HTTPException 403
  | serviceUnavailable                   -- HTTPException 503
  | notFound                             -- HTTPException 404
  | serverError                          -- HTTPException 500 / uncaught exception
  | file (path : String) (filename : String)  -- FileResponse
deriving Repr, DecidableEq

/-- The process-wide mutable state shared by the endpoints, plus the local
filesystem and a trace of renderer invocations. -/
structure AppState where
  rate : RateMap
  tokens : TokenMap
  logs : Option (List LogEntry)
  fs : List String
  rendered : List String

/-- The renderer collaborator `CertificateGenerator.generate_certificate`:
writes `<certificate_id>.pdf` and is recorded in the invocation trace. -/
def render_certificate (st : AppState) (certificate_id : String) : AppState :=
  { st with fs := st.fs ++ [certificate_id],
            rendered := st.rendered ++ [certificate_id] }

/-- Embedding of `GET /certificate` (`app/main.py`, lines 192-284). Parameters beyond the
query string: `now`/`nowIso` the clock, `parseTs` the timestamp parser the
fraud check uses, `rosterAvailable` whether the students CSV exists,
`roster` its parsed rows, `prefix_env`/`output_dir` the environment.
Returns the response and the post-request state. -/
def get_certificate (parseTs : String → Option Int) (now : Int)
    (nowIso : String) (prefix_env output_dir : String)
    (rosterAvailable : Bool) (roster : List Student)
    (client_ip name student_id csrf_token : String) (force : Bool)
    (st : AppState) : Response × AppState :=
  -- rate-limit check (lines 221-227)
  let rl := is_allowed 5 60 st.rate client_ip "get_certificate" now
  let st := { st with rate := rl.2.2 }
  if !rl.1 then
    (Response.tooManyRequests,
     { st with logs := log_request st.logs nowIso client_ip "get_certificate"
                 name student_id "failed" "Rate limit exceeded" })
  else
    -- CSRF validation (lines 230-235)
    let tv := validate_token st.tokens csrf_token now 3600
    let st := { st with tokens := tv.2 }
    if !tv.1 then
      (Response.forbidden,
       { st with logs := log_request st.logs nowIso client_ip "get_certificate"
                   name student_id "failed" "Invalid CSRF token" })
    else if !rosterAvailable then
      -- FileNotFoundError from the roster store (lines 240-245)
      (Response.serviceUnavailable,
       { st with logs := log_request st.logs nowIso client_ip "get_certificate"
                   name student_id "failed" "CSV not available" })
    else
      match find_student_by_name_and_id roster name student_id with
      | none =>
        (Response.notFound,
         { st with logs := log_request st.logs nowIso client_ip "get_certificate"
                     name student_id "failed" "Student not found" })
      | some student =>
        let certificate_id :=
          generate_certificate_id prefix_env student.student_id (some student.name)
        -- idempotent render (lines 264-273)
        let st :=
          if force || !(certificate_exists st.fs certificate_id) then
            render_certificate st certificate_id
          else st
        -- success log (line 276), then the fraud check (line 279), whose
        -- uncaught ValueError on a malformed stored timestamp is a 500
        let successLogs :=
          log_request st.logs nowIso client_ip "get_certificate"
            student.name student.student_id "success" ""
        let st := { st with logs := successLogs }
        match check_suspicious_activity parseTs now st.logs client_ip 10 with
        | none => (Response.serverError, st)
        | some _ =>
          (Response.file (get_certificate_path output_dir certificate_id)
             (certificate_id ++ ".pdf"), st)

/-- Outcome of the bulk admin endpoints. -/
inductive AdminResult
  | unauthorized                               -- HTTPException 403
  | ok (generated : List String) (skipped : List String)
deriving Repr, DecidableEq

/-- The generation loop of `GET /generate-all` (lines 315-333): derive each
certificate id, skip existing PDFs, render the rest. Returns the generated
and skipped id lists and the filesystem after the loop. -/
def generate_all_loop (prefix_env : String) (fs : List String) :
    List Student → List String × List String × List String
  | [] => ([], [], fs)
  | student :: rest =>
    let certificate_id :=
      generate_certificate_id prefix_env student.student_id (some student.name)
    if certificate_exists fs certificate_id then
      let r := generate_all_loop prefix_env fs rest
      (r.1, certificate_id :: r.2.1, r.2.2)
    else
      let r := generate_all_loop prefix_env (fs ++ [certificate_id]) rest
      (certificate_id :: r.1, r.2.1, r.2.2)

/-- Embedding of `GET /generate-all` (`app/main.py`, lines 288-348). `admin_key_env` is
the configured `ADMIN_KEY` (default `""`); the check at line 304 runs only
when it is non-empty. Returns the outcome and the post-call filesystem. -/
def generate_all_certificates (admin_key_env : String) (prefix_env : String)
    (students : List Student) (fs : List String) (admin_key : String) :
    AdminResult × List String :=
  if admin_key_env ≠ "" ∧ admin_key ≠ admin_key_env then
    (AdminResult.unauthorized, fs)
  else
    let r := generate_all_loop prefix_env fs students
    (AdminResult.ok r.1 r.2.1, r.2.2)

/-- The generation loop of `GET /generate-all-management` (lines 516-531):
like `generate_all_loop` with the management id derivation. -/
def generate_all_management_loop (prefix_env : String) (fs : List String) :
    List Student → List String × List String × List String
  | [] => ([], [], fs)
  | person :: rest =>
    let certificate_id :=
      generate_management_certificate_id prefix_env person.student_id
        (some person.name)
    if certificate_exists fs certificate_id then
      let r := generate_all_management_loop prefix_env fs rest
      (r.1, certificate_id :: r.2.1, r.2.2)
    else
      let r := generate_all_management_loop prefix_env (fs ++ [certificate_id]) rest
      (certificate_id :: r.1, r.2.1, r.2.2)

/-- Embedding of `GET /generate-all-management` (`app/main.py`, lines 489-546): identical
admin gate (line 505), management id derivation. -/
def generate_all_management_certificates (admin_key_env : String)
    (prefix_env : String) (management : List Student) (fs : List String)
    (admin_key : String) : AdminResult × List String :=
  if admin_key_env ≠ "" ∧ admin_key ≠ admin_key_env then
    (AdminResult.unauthorized, fs)
  else
    let r := generate_all_management_loop prefix_env fs management
    (AdminResult.ok r.1 r.2.1, r.2.2)

/-! ## Operation traces (for the temporal claims) -/

/-- A token-manager operation: `generate_token` (with its random output and
clock reading made explicit) or `validate_token`. -/
inductive TokenOp where
  | issue (tok : String) (time : Int)
  | check (tok : String) (time max_age : Int)
deriving Repr, DecidableEq

/-- Effect of one token-manager operation on the token map. -/
def applyTokenOp (m : TokenMap) : TokenOp → TokenMap
  | .issue tok time => generate_token m tok time
  | .check tok time max_age => (validate_token m tok time max_age).2

/-- Run a sequence of token-manager operations. -/
def runTokenOps (m : TokenMap) : List TokenOp → TokenMap
  | [] => m
  | op :: rest => runTokenOps (applyTokenOp m op) rest

/-- Run `RateLimiter.is_allowed` once per clock reading in `calls`, for one
`(ip_address, endpoint)` key; returns the final map and whether every call
was permitted. -/
def runRateCalls (max_requests : Nat) (window_seconds : Int) (m : RateMap)
    (ip_address endpoint : String) : List Int → RateMap × Bool
  | [] => (m, true)
  | now :: rest =>
    let r := is_allowed max_requests window_seconds m ip_address endpoint now
    let r2 := runRateCalls max_requests window_seconds r.2.2 ip_address
      endpoint rest
    (r2.1, r.1 && r2.2)

/-! ## Theorems -/

/-- Any `validate_token` call leaves its argument token out of the live map:
all three branches either find it absent or delete it. -/
theorem validate_token_self_removed (m : TokenMap) (t : String)
    (now max_age : Int) : (validate_token m t now max_age).2 t = none := by
  unfold validate_token
  cases hm : m t with
  | none => simpa using hm
  | some T => by_cases hage : now - T > max_age <;> simp [hage, deleteTok]

/-- Validation of an absent token returns `False`. -/
theorem validate_token_absent_false (m : TokenMap) (t : String)
    (now max_age : Int) (h : m t = none) :
    (validate_token m t now max_age).1 = false := by
  simp [validate_token, h]

/-- No token-manager operation other than an issuance of `t` can put `t`
back into the live map. -/
theorem applyTokenOp_preserves_absent (m : TokenMap) (op : TokenOp)
    (t : String) (h : m t = none) (hop : ∀ time, op ≠ TokenOp.issue t time) :
    applyTokenOp m op t = none := by
  cases op with
  | issue tok time =>
    have hne : tok ≠ t := fun he => hop time (by rw [he])
    have hne' : t ≠ tok := Ne.symm hne
    simp [applyTokenOp, generate_token, updateMap, h, hne']
  | check tok time max_age =>
    show (validate_token m tok time max_age).2 t = none
    have habs : (if t = tok then none else m t) = (none : Option Int) := by
      by_cases he : t = tok
      · simp [he]
      · simp [he, h]
    cases hm : m tok with
    | none => simp [validate_token, hm, h]
    | some T =>
      by_cases hage : time - T > max_age <;>
        simpa [validate_token, hm, hage, deleteTok] using habs

/-- Running operations that never issue `t` keeps `t` out of the map. -/
theorem runTokenOps_preserves_absent (ops : List TokenOp) :
    ∀ (m : TokenMap) (t : String), m t = none →
    (∀ time, TokenOp.issue t time ∉ ops) → runTokenOps m ops t = none := by
  induction ops with
  | nil => intro m t h _; exact h
  | cons op rest ih =>
    intro m t h hops
    have h1 : applyTokenOp m op t = none :=
      applyTokenOp_preserves_absent m op t h
        (fun time he => hops time (by rw [he]; exact List.mem_cons_self _ _))
    exact ih (applyTokenOp m op) t h1
      (fun time hmem => hops time (List.mem_cons_of_mem _ hmem))

/-- C4: after the first `validate_token` call on `t` — whatever its result —
`t` is gone from the live map, and after any further sequence of
token-manager operations that does not issue the same string again, every
subsequent validation of `t` returns `False`; hence `validate(t)` returns
`True` at most once per issuance. -/
theorem C4_token_single_use (m : TokenMap) (t : String) (n1 a1 n2 a2 : Int)
    (ops : List TokenOp) (hops : ∀ time : Int, TokenOp.issue t time ∉ ops) :
    (validate_token m t n1 a1).2 t = none ∧
    (validate_token (runTokenOps (validate_token m t n1 a1).2 ops) t
        n2 a2).1 = false := by
  refine ⟨validate_token_self_removed m t n1 a1, ?_⟩
  exact validate_token_absent_false _ t n2 a2
    (runTokenOps_preserves_absent ops _ t
      (validate_token_self_removed m t n1 a1) hops)

/-- Witness for C4: a freshly issued token validates once (successfully),
and after interleaved operations on another token every revalidation
fails. -/
theorem C4_witness :
    ((∀ time : Int,
        TokenOp.issue "tok" time ∉
          [TokenOp.issue "other" 7, TokenOp.check "other" 8 3600]) ∧
      (validate_token (fun k => if k = "tok" then some (0 : Int) else none)
        "tok" 1 3600).1 = true) ∧
    ((validate_token (fun k => if k = "tok" then some (0 : Int) else none)
        "tok" 1 3600).2 "tok" = none ∧
     (validate_token
        (runTokenOps
          ((validate_token (fun k => if k = "tok" then some (0 : Int) else none)
            "tok" 1 3600).2)
          [TokenOp.issue "other" 7, TokenOp.check "other" 8 3600])
        "tok" 9 3600).1 = false) :=
  ⟨⟨by intro time; simp, by decide⟩,
   C4_token_single_use (fun k => if k = "tok" then some 0 else none) "tok"
     1 3600 9 3600 [TokenOp.issue "other" 7, TokenOp.check "other" 8 3600]
     (by intro time; simp)⟩

/-- C1: FALSIFIED BY THE CODE. The recency filter at `security.py` lines
208-211 tests `(ts - now).total_seconds() < window_minutes * 60`, which holds
for every entry in the past; the operands are reversed. With
`window_minutes = 10`, an entry whose well-formed timestamp parses to 1200
seconds (20 minutes) before `now` is still counted: the verdict reports
`recent_requests = 1` and `failed_attempts = 1`, where the claim requires the
entry to be excluded from both tallies. -/
theorem C1_stale_entry_still_counted :
    ((1200 : Int) - 0 > 10 * 60) ∧
    check_suspicious_activity
      (fun s => if s = "2024-01-01T00:00:00" then some 0 else none) 1200
      (some [{ timestamp := "2024-01-01T00:00:00", ip_address := "1.2.3.4",
               endpoint := "get_certificate", name := "Jane Doe", id := "S123",
               status := "failed", reason := "Student not found" }])
      "1.2.3.4" 10 =
      some { ip := "1.2.3.4", recent_requests := 1, failed_attempts := 1,
             successful_downloads := 0, suspicious := false,
             reason := "Normal" } :=
  ⟨by decide, by decide⟩

/-- C2: FALSIFIED BY THE CODE. `datetime.fromisoformat` at `security.py`
line 210 is called outside any exception handler, so one malformed timestamp
raises `ValueError` out of `check_suspicious_activity`: the assessment as a
whole fails (`none`) instead of excluding the entry, even when another entry
of the same log is well-formed. -/
theorem C2_malformed_timestamp_aborts_assessment :
    check_suspicious_activity
      (fun s => if s = "2024-01-01T00:00:00" then some 0 else none) 60
      (some [{ timestamp := "2024-01-01T00:00:00", ip_address := "1.2.3.4",
               endpoint := "get_certificate", name := "Jane Doe", id := "S123",
               status := "success", reason := "" },
             { timestamp := "not-a-timestamp", ip_address := "1.2.3.4",
               endpoint := "get_certificate", name := "Jane Doe", id := "S123",
               status := "failed", reason := "Invalid CSRF token" }])
      "1.2.3.4" 10 = none := by decide

/-- C3 as stated is false at `ADMIN_KEY = ""` (the default when the variable
is unset, `main.py` line 45): the gate at line 304 runs only when `ADMIN_KEY`
is non-empty, so a request whose `admin_key` (`"wrong-key"`) differs from the
configured value is not rejected with 403 and a certificate is generated. -/
theorem C3_counterexample :
    ("wrong-key" : String) ≠ "" ∧
    (generate_all_certificates "" "CERT"
        [{ name := "Jane Doe", student_id := "S123",
           email := "jane@example.com", course := "CS" }] [] "wrong-key").1 =
      AdminResult.ok ["Jane_Doe"] [] :=
  ⟨by decide, by decide⟩

/-- C3 (amended): whenever a non-empty admin key is configured, every
`/generate-all` or `/generate-all-management` request whose `admin_key` does
not equal it yields the 403 Unauthorized signal and generates no
certificates (the filesystem of PDFs is unchanged). -/
theorem C3_admin_gate_enforced (admin_key_env prefix_env : String)
    (students management : List Student) (fs fs2 : List String)
    (admin_key : String) (henv : admin_key_env ≠ "")
    (hkey : admin_key ≠ admin_key_env) :
    generate_all_certificates admin_key_env prefix_env students fs admin_key =
      (AdminResult.unauthorized, fs) ∧
    generate_all_management_certificates admin_key_env prefix_env management
      fs2 admin_key = (AdminResult.unauthorized, fs2) := by
  constructor <;>
    simp [generate_all_certificates, generate_all_management_certificates,
      henv, hkey]

/-- Witness for C3 at a concrete configuration and request. -/
theorem C3_witness :
    (("secret" : String) ≠ "" ∧ ("wrong" : String) ≠ "secret") ∧
    (generate_all_certificates "secret" "CERT"
        [{ name := "Jane Doe", student_id := "S123",
           email := "jane@example.com", course := "CS" }] [] "wrong" =
      (AdminResult.unauthorized, []) ∧
     generate_all_management_certificates "secret" "CERT-MGMT" []
       ["Jane_Doe"] "wrong" = (AdminResult.unauthorized, ["Jane_Doe"])) :=
  ⟨⟨by decide, by decide⟩,
   C3_admin_gate_enforced "secret" "CERT"
     [{ name := "Jane Doe", student_id := "S123",
        email := "jane@example.com", course := "CS" }] [] [] ["Jane_Doe"]
     "wrong" (by decide) (by decide)⟩

/-- Accepted-run lemma for the rate limiter: starting from a map whose key
already holds `prev`, a burst `ts` of calls that all fall within
`window_seconds` of every retained timestamp and keep the count at or below
`max_requests` is accepted in full, and afterwards the key holds
`prev ++ ts`. -/
theorem runRateCalls_all_accepted (max_requests : Nat) (w : Int)
    (ip ep : String) (ts : List Int) :
    ∀ (prev : List Int) (m : RateMap),
      m (ip ++ ":" ++ ep) = prev →
      (∀ x ∈ prev ++ ts, ∀ y ∈ ts, y - x < w) →
      prev.length + ts.length ≤ max_requests →
      (runRateCalls max_requests w m ip ep ts).2 = true ∧
      (runRateCalls max_requests w m ip ep ts).1 (ip ++ ":" ++ ep) =
        prev ++ ts := by
  induction ts with
  | nil =>
    intro prev m hm _ _
    simpa [runRateCalls] using hm
  | cons now rest ih =>
    intro prev m hm hfresh hlen
    have hprune : pruneWindow w now (m (ip ++ ":" ++ ep)) = prev := by
      rw [hm]
      refine List.filter_eq_self.mpr ?_
      intro x hx
      simp only [decide_eq_true_eq]
      exact hfresh x (List.mem_append_left _ hx) now (List.mem_cons_self _ _)
    have hlt : ¬ prev.length ≥ max_requests := by
      simp only [List.length_cons] at hlen
      omega
    have hcall : is_allowed max_requests w m ip ep now =
        (true, max_requests - (prev ++ [now]).length,
          updateMap m (ip ++ ":" ++ ep) (prev ++ [now])) := by
      simp only [is_allowed, hprune, hlt, if_false]
    have hm' : updateMap m (ip ++ ":" ++ ep) (prev ++ [now])
        (ip ++ ":" ++ ep) = prev ++ [now] := by
      simp [updateMap]
    have hfresh' : ∀ x ∈ (prev ++ [now]) ++ rest, ∀ y ∈ rest, y - x < w := by
      intro x hx y hy
      refine hfresh x ?_ y (List.mem_cons_of_mem _ hy)
      simpa [List.append_assoc] using hx
    have hlen' : (prev ++ [now]).length + rest.length ≤ max_requests := by
      simp only [List.length_append, List.length_cons, List.length_nil]
        at hlen ⊢
      omega
    have hrest := ih (prev ++ [now])
      (updateMap m (ip ++ ":" ++ ep) (prev ++ [now])) hm' hfresh' hlen'
    constructor
    · simp only [runRateCalls, hcall, Bool.true_and]
      exact hrest.1
    · simp only [runRateCalls, hcall]
      rw [hrest.2, List.append_assoc]
      rfl

/-- C6: from a fresh limiter with `max_requests = N > 0`, a burst of `N`
calls for one identity and action within the window is fully accepted; the
next call at `u`, still within `window_seconds` of every recorded timestamp,
is rejected with `(permitted, remaining) = (false, 0)` and records no new
timestamp for the key; and once every recorded timestamp has aged past
`window_seconds`, the following call at `v` is permitted again. -/
theorem C6_rate_window_correctness (N : Nat) (w : Int) (ip ep : String)
    (ts : List Int) (u v : Int) (hN : 0 < N) (hlen : ts.length = N)
    (hwin : ∀ x ∈ ts, ∀ y ∈ ts ++ [u], y - x < w)
    (hpast : ∀ x ∈ ts, w ≤ v - x) :
    (runRateCalls N w (fun _ => []) ip ep ts).2 = true ∧
    (runRateCalls N w (fun _ => []) ip ep ts).1 (ip ++ ":" ++ ep) = ts ∧
    (is_allowed N w (runRateCalls N w (fun _ => []) ip ep ts).1 ip ep u).1 =
      false ∧
    (is_allowed N w (runRateCalls N w (fun _ => []) ip ep ts).1 ip ep
        u).2.1 = 0 ∧
    (is_allowed N w (runRateCalls N w (fun _ => []) ip ep ts).1 ip ep
        u).2.2 (ip ++ ":" ++ ep) = ts ∧
    (is_allowed N w
        (is_allowed N w (runRateCalls N w (fun _ => []) ip ep ts).1 ip ep
          u).2.2 ip ep v).1 = true := by
  have hrun := runRateCalls_all_accepted N w ip ep ts [] (fun _ => []) rfl
    (by
      intro x hx y hy
      exact hwin x (by simpa using hx) y (List.mem_append_left _ hy))
    (by simp [hlen])
  have hkey : (runRateCalls N w (fun _ => []) ip ep ts).1
      (ip ++ ":" ++ ep) = ts := by simpa using hrun.2
  have hpruneU : pruneWindow w u
      ((runRateCalls N w (fun _ => []) ip ep ts).1 (ip ++ ":" ++ ep)) = ts := by
    rw [hkey]
    refine List.filter_eq_self.mpr ?_
    intro x hx
    simp only [decide_eq_true_eq]
    exact hwin x hx u (List.mem_append_right _ (List.mem_singleton_self _))
  have hfull : ts.length ≥ N := by omega
  have hcallU : is_allowed N w (runRateCalls N w (fun _ => []) ip ep ts).1
      ip ep u =
      (false, 0, updateMap (runRateCalls N w (fun _ => []) ip ep ts).1
        (ip ++ ":" ++ ep) ts) := by
    simp only [is_allowed, hpruneU]
    rw [if_pos (by omega)]
  have hkeyU : (is_allowed N w (runRateCalls N w (fun _ => []) ip ep ts).1
      ip ep u).2.2 (ip ++ ":" ++ ep) = ts := by
    rw [hcallU]
    simp [updateMap]
  have hpruneV : pruneWindow w v
      ((is_allowed N w (runRateCalls N w (fun _ => []) ip ep ts).1 ip ep
        u).2.2 (ip ++ ":" ++ ep)) = [] := by
    rw [hkeyU]
    refine List.filter_eq_nil_iff.mpr ?_
    intro x hx
    simp only [decide_eq_true_eq]
    have := hpast x hx
    omega
  refine ⟨hrun.1, hkey, ?_, ?_, hkeyU, ?_⟩
  · rw [hcallU]
  · rw [hcallU]
  · generalize (is_allowed N w (runRateCalls N w (fun _ => []) ip ep ts).1
      ip ep u).2.2 = m2 at hpruneV ⊢
    simp only [is_allowed, hpruneV, List.length_nil]
    rw [if_neg (by omega)]

/-- Witness for C6: `N = 2`, `window_seconds = 60`; calls at times 0 and 1
are accepted, the call at time 2 is rejected with remaining 0 and records
nothing, and the call at time 100 is accepted again. -/
theorem C6_witness :
    (0 < 2 ∧ [(0 : Int), 1].length = 2 ∧
      (∀ x ∈ [(0 : Int), 1], ∀ y ∈ [(0 : Int), 1] ++ [2], y - x < 60) ∧
      (∀ x ∈ [(0 : Int), 1], (60 : Int) ≤ 100 - x)) ∧
    ((runRateCalls 2 60 (fun _ => []) "1.2.3.4" "get_certificate"
        [0, 1]).2 = true ∧
     (runRateCalls 2 60 (fun _ => []) "1.2.3.4" "get_certificate"
        [0, 1]).1 ("1.2.3.4" ++ ":" ++ "get_certificate") = [0, 1] ∧
     (is_allowed 2 60 (runRateCalls 2 60 (fun _ => []) "1.2.3.4"
        "get_certificate" [0, 1]).1 "1.2.3.4" "get_certificate" 2).1 =
       false ∧
     (is_allowed 2 60 (runRateCalls 2 60 (fun _ => []) "1.2.3.4"
        "get_certificate" [0, 1]).1 "1.2.3.4" "get_certificate" 2).2.1 = 0 ∧
     (is_allowed 2 60 (runRateCalls 2 60 (fun _ => []) "1.2.3.4"
        "get_certificate" [0, 1]).1 "1.2.3.4" "get_certificate" 2).2.2
        ("1.2.3.4" ++ ":" ++ "get_certificate") = [0, 1] ∧
     (is_allowed 2 60
        (is_allowed 2 60 (runRateCalls 2 60 (fun _ => []) "1.2.3.4"
          "get_certificate" [0, 1]).1 "1.2.3.4" "get_certificate" 2).2.2
        "1.2.3.4" "get_certificate" 100).1 = true) :=
  ⟨⟨by decide, by decide, by decide, by decide⟩,
   C6_rate_window_correctness 2 60 "1.2.3.4" "get_certificate" [0, 1] 2 100
     (by decide) (by decide) (by decide) (by decide)⟩

/-- C5: a token `t` recorded at issuance time `T` and validated strictly
later than `T + max_age` yields `False` even on first use, and the call
removes `t` from the live token map (`security.py` lines 89-95). -/
theorem C5_token_expiry (tokens : TokenMap) (t : String) (T now max_age : Int)
    (hk : tokens t = some T) (hlate : T + max_age < now) :
    (validate_token tokens t now max_age).1 = false ∧
    (validate_token tokens t now max_age).2 t = none := by
  have hage : now - T > max_age := by omega
  simp [validate_token, hk, hage, deleteTok]

/-- Witness for C5: a token issued at time 0 and first validated at time
5000 with `max_age = 3600` is rejected and dropped. -/
theorem C5_witness :
    ((fun k => if k = "tok" then some (0 : Int) else none) "tok" = some 0 ∧
      (0 : Int) + 3600 < 5000) ∧
    ((validate_token (fun k => if k = "tok" then some 0 else none) "tok"
        5000 3600).1 = false ∧
     (validate_token (fun k => if k = "tok" then some 0 else none) "tok"
        5000 3600).2 "tok" = none) :=
  ⟨⟨by decide, by decide⟩,
   C5_token_expiry (fun k => if k = "tok" then some 0 else none) "tok" 0 5000
     3600 (by decide) (by decide)⟩

/-- Full evaluation of `GET /certificate` on the rate-limited branch: when
the pruned window for the client's key already holds `max_requests = 5`
timestamps, the endpoint answers 429 and only re-writes the pruned window
and the failure log entry — for any roster and roster availability. -/
theorem get_certificate_rate_limited (parseTs : String → Option Int)
    (now : Int) (nowIso prefix_env output_dir : String)
    (rosterAvailable : Bool) (roster : List Student)
    (client_ip name student_id csrf_token : String) (force : Bool)
    (st : AppState)
    (hrate : 5 ≤ (pruneWindow 60 now
      (st.rate (client_ip ++ ":" ++ "get_certificate"))).length) :
    get_certificate parseTs now nowIso prefix_env output_dir
      rosterAvailable roster client_ip name student_id csrf_token force st =
    (Response.tooManyRequests,
     { rate := updateMap st.rate (client_ip ++ ":" ++ "get_certificate")
         (pruneWindow 60 now
           (st.rate (client_ip ++ ":" ++ "get_certificate"))),
       tokens := st.tokens,
       logs := log_request st.logs nowIso client_ip "get_certificate" name
         student_id "failed" "Rate limit exceeded",
       fs := st.fs, rendered := st.rendered }) := by
  have hcall : is_allowed 5 60 st.rate client_ip "get_certificate" now =
      (false, 0, updateMap st.rate (client_ip ++ ":" ++ "get_certificate")
        (pruneWindow 60 now
          (st.rate (client_ip ++ ":" ++ "get_certificate")))) := by
    simp only [is_allowed]
    rw [if_pos hrate]
  simp only [get_certificate, hcall, Bool.not_false, if_true]

/-- C7 as stated is false in one detail: the failure entry's reason string is
`"Rate limit exceeded"` (capital R, `main.py` line 223), not the claimed
`"rate limit exceeded"`. Concretely, a 6th in-window request is rejected 429
and logged, but no entry carries the claimed reason text. -/
theorem C7_counterexample :
    ((get_certificate (fun _ => none) 0 "2024-01-01T00:00:00" "CERT"
        "certificates" true []
        "9.9.9.9" "Jane Doe" "S123" "tok" false
        { rate := fun k => if k = "9.9.9.9:get_certificate"
            then [0, 0, 0, 0, 0] else [],
          tokens := fun _ => none, logs := some [], fs := [],
          rendered := [] }).1 = Response.tooManyRequests) ∧
    ((get_certificate (fun _ => none) 0 "2024-01-01T00:00:00" "CERT"
        "certificates" true []
        "9.9.9.9" "Jane Doe" "S123" "tok" false
        { rate := fun k => if k = "9.9.9.9:get_certificate"
            then [0, 0, 0, 0, 0] else [],
          tokens := fun _ => none, logs := some [], fs := [],
          rendered := [] }).2.logs =
      some [{ timestamp := "2024-01-01T00:00:00", ip_address := "9.9.9.9",
              endpoint := "get_certificate", name := "Jane Doe",
              id := "S123", status := "failed",
              reason := "Rate limit exceeded" }]) ∧
    ("Rate limit exceeded" : String) ≠ "rate limit exceeded" :=
  ⟨by decide, by decide, by decide⟩

/-- C7 (amended): a generation request that exceeds the rate limit (the 6th
in-window request for the same IP and action with `max_requests = 5`) is
rejected 429 and logged as `failed` with reason `"Rate limit exceeded"`,
without consuming the supplied token (the token map is unchanged), without
touching the certificate store, and without consulting the roster (the
response and state are independent of the roster and its availability). -/
theorem C7_rate_limit_exhaustion (parseTs : String → Option Int) (now : Int)
    (nowIso prefix_env output_dir : String) (rosterAvailable : Bool)
    (roster : List Student)
    (client_ip name student_id csrf_token : String) (force : Bool)
    (st : AppState)
    (hrate : 5 ≤ (pruneWindow 60 now
      (st.rate (client_ip ++ ":" ++ "get_certificate"))).length) :
    (get_certificate parseTs now nowIso prefix_env output_dir
        rosterAvailable roster client_ip name student_id csrf_token force
        st).1 = Response.tooManyRequests ∧
    (get_certificate parseTs now nowIso prefix_env output_dir
        rosterAvailable roster client_ip name student_id csrf_token force
        st).2.tokens = st.tokens ∧
    (get_certificate parseTs now nowIso prefix_env output_dir
        rosterAvailable roster client_ip name student_id csrf_token force
        st).2.logs = log_request st.logs nowIso client_ip "get_certificate"
      name student_id "failed" "Rate limit exceeded" ∧
    (get_certificate parseTs now nowIso prefix_env output_dir
        rosterAvailable roster client_ip name student_id csrf_token force
        st).2.fs = st.fs ∧
    (get_certificate parseTs now nowIso prefix_env output_dir
        rosterAvailable roster client_ip name student_id csrf_token force
        st).2.rendered = st.rendered ∧
    (∀ (rosterAvailable' : Bool) (roster' : List Student),
      get_certificate parseTs now nowIso prefix_env output_dir
        rosterAvailable' roster' client_ip name student_id csrf_token force
        st =
      get_certificate parseTs now nowIso prefix_env output_dir
        rosterAvailable roster client_ip name student_id csrf_token force
        st) := by
  rw [get_certificate_rate_limited parseTs now nowIso prefix_env output_dir
    rosterAvailable roster client_ip name student_id csrf_token force st
    hrate]
  refine ⟨rfl, rfl, rfl, rfl, rfl, ?_⟩
  intro ra' roster'
  rw [get_certificate_rate_limited parseTs now nowIso prefix_env output_dir
    ra' roster' client_ip name student_id csrf_token force st hrate]

/-- Witness for C7: with five fresh timestamps already recorded for
`9.9.9.9:get_certificate`, the 6th request is answered 429. -/
theorem C7_witness :
    (5 ≤ (pruneWindow 60 0
        ((fun k => if k = "9.9.9.9:get_certificate"
            then [(0 : Int), 0, 0, 0, 0] else [])
          ("9.9.9.9" ++ ":" ++ "get_certificate"))).length) ∧
    (get_certificate (fun _ => none) 0 "2024-01-01T00:00:00" "CERT"
        "certificates" true []
        "9.9.9.9" "Jane Doe" "S123" "tok" false
        { rate := fun k => if k = "9.9.9.9:get_certificate"
            then [0, 0, 0, 0, 0] else [],
          tokens := fun _ => none, logs := some [], fs := [],
          rendered := [] }).1 = Response.tooManyRequests :=
  ⟨by decide,
   (C7_rate_limit_exhaustion (fun _ => none) 0 "2024-01-01T00:00:00" "CERT"
     "certificates" true [] "9.9.9.9" "Jane Doe" "S123" "tok" false
     { rate := fun k => if k = "9.9.9.9:get_certificate"
         then [0, 0, 0, 0, 0] else [],
       tokens := fun _ => none, logs := some [], fs := [], rendered := [] }
     (by decide)).1⟩

/-- Inserting a strictly-newer entry in front: when every element of the
list has a strictly older timestamp than `e`, a stable descending sort of
`l ++ [e]` puts `e` first. -/
theorem sortDescByTs_append_newest (l : List LogEntry) (e : LogEntry)
    (h : ∀ x ∈ l, tsLt x e = true) :
    sortDescByTs (l ++ [e]) = e :: sortDescByTs l := by
  induction l with
  | nil => rfl
  | cons x xs ih =>
    have hx : tsLt x e = true := h x (List.mem_cons_self _ _)
    have hrest : ∀ y ∈ xs, tsLt y e = true :=
      fun y hy => h y (List.mem_cons_of_mem _ hy)
    calc sortDescByTs ((x :: xs) ++ [e])
        = insertDesc x (sortDescByTs (xs ++ [e])) := rfl
      _ = insertDesc x (e :: sortDescByTs xs) := by rw [ih hrest]
      _ = e :: insertDesc x (sortDescByTs xs) := by
          simp [insertDesc, hx]
      _ = e :: sortDescByTs (x :: xs) := rfl

/-- C8 as stated is false when the appended entry's timestamp ties an
existing entry's: Python's `sorted(..., reverse=True)` is stable, so the
earlier-appended entry keeps its place and is returned first, not `E`.
Here the store already holds Alice's entry with the same timestamp Bob's
fresh entry `E` gets, and the query returns Alice's entry first. -/
theorem C8_counterexample :
    ((get_logs (log_request
        (some [{ timestamp := "2024-01-01T10:00:00", ip_address := "1.2.3.4",
                 endpoint := "get_certificate", name := "Alice", id := "S1",
                 status := "success", reason := "" }])
        "2024-01-01T10:00:00" "1.2.3.4" "get_certificate" "Bob" "S2"
        "success" "") none 100).head? =
      some { timestamp := "2024-01-01T10:00:00", ip_address := "1.2.3.4",
             endpoint := "get_certificate", name := "Alice", id := "S1",
             status := "success", reason := "" }) ∧
    ({ timestamp := "2024-01-01T10:00:00", ip_address := "1.2.3.4",
       endpoint := "get_certificate", name := "Alice", id := "S1",
       status := "success", reason := "" } : LogEntry) ≠
      { timestamp := "2024-01-01T10:00:00", ip_address := "1.2.3.4",
        endpoint := "get_certificate", name := "Bob", id := "S2",
        status := "success", reason := "" } :=
  ⟨by decide, by decide⟩

/-- C8 (amended): appending `E` and querying returns `E` first provided
`E`'s timestamp is lexicographically strictly greater than every stored
entry's (with a timestamp tie the earlier-appended entry sorts first, by
stability); repeated queries without further appends return identical
results; and a missing store yields the empty sequence, not an error. -/
theorem C8_audit_append_query (store : Option (List LogEntry))
    (nowIso ip ep nm idv stt rsn : String) (limit : Nat) (hlim : 0 < limit)
    (hts : ∀ x ∈ store.getD [],
      lexLt x.timestamp.toList nowIso.toList = true) :
    ((get_logs (log_request store nowIso ip ep nm idv stt rsn) none
        limit).head? =
      some { timestamp := nowIso, ip_address := ip, endpoint := ep,
             name := nm, id := idv, status := stt, reason := rsn }) ∧
    (get_logs (log_request store nowIso ip ep nm idv stt rsn) none limit =
      get_logs (log_request store nowIso ip ep nm idv stt rsn) none limit) ∧
    get_logs none none limit = [] := by
  refine ⟨?_, rfl, rfl⟩
  have hs := sortDescByTs_append_newest (store.getD [])
    { timestamp := nowIso, ip_address := ip, endpoint := ep, name := nm,
      id := idv, status := stt, reason := rsn }
    (fun x hx => by simpa [tsLt] using hts x hx)
  show ((sortDescByTs (store.getD [] ++ [_])).take limit).head? = _
  rw [hs]
  cases limit with
  | zero => omega
  | succ k => simp

/-- Witness for C8: appending Bob's strictly newer entry to a store holding
one older entry returns Bob's entry first. -/
theorem C8_witness :
    (0 < 100 ∧
      (∀ x ∈ (some [{ timestamp := "2024-01-01T09:00:00",
                      ip_address := "1.2.3.4", endpoint := "get_certificate",
                      name := "Alice", id := "S1", status := "success",
                      reason := "" }] : Option (List LogEntry)).getD [],
        lexLt x.timestamp.toList "2024-01-01T10:00:00".toList = true)) ∧
    (((get_logs (log_request
        (some [{ timestamp := "2024-01-01T09:00:00", ip_address := "1.2.3.4",
                 endpoint := "get_certificate", name := "Alice", id := "S1",
                 status := "success", reason := "" }])
        "2024-01-01T10:00:00" "1.2.3.4" "get_certificate" "Bob" "S2"
        "success" "") none 100).head? =
      some { timestamp := "2024-01-01T10:00:00", ip_address := "1.2.3.4",
             endpoint := "get_certificate", name := "Bob", id := "S2",
             status := "success", reason := "" }) ∧
     (get_logs (log_request
        (some [{ timestamp := "2024-01-01T09:00:00", ip_address := "1.2.3.4",
                 endpoint := "get_certificate", name := "Alice", id := "S1",
                 status := "success", reason := "" }])
        "2024-01-01T10:00:00" "1.2.3.4" "get_certificate" "Bob" "S2"
        "success" "") none 100 =
      get_logs (log_request
        (some [{ timestamp := "2024-01-01T09:00:00", ip_address := "1.2.3.4",
                 endpoint := "get_certificate", name := "Alice", id := "S1",
                 status := "success", reason := "" }])
        "2024-01-01T10:00:00" "1.2.3.4" "get_certificate" "Bob" "S2"
        "success" "") none 100) ∧
     get_logs none none 100 = []) :=
  ⟨⟨by decide, by decide⟩,
   C8_audit_append_query
     (some [{ timestamp := "2024-01-01T09:00:00", ip_address := "1.2.3.4",
              endpoint := "get_certificate", name := "Alice", id := "S1",
              status := "success", reason := "" }])
     "2024-01-01T10:00:00" "1.2.3.4" "get_certificate" "Bob" "S2" "success"
     "" 100 (by decide) (by decide)⟩

/-- Full evaluation of `GET /certificate` on the cached-PDF path: with the
rate limit clear, a live fresh token, the roster resolving the identity, the
certificate PDF already on disk, `force = false`, and a fraud check that
parses, the endpoint consumes the token, logs `success`, invokes no render,
and streams the existing file. -/
theorem get_certificate_cached (parseTs : String → Option Int) (now : Int)
    (nowIso prefix_env output_dir : String) (roster : List Student)
    (client_ip name student_id csrf_token : String) (st : AppState)
    (student : Student) (T : Int) (v : Verdict)
    (hrate : ¬ 5 ≤ (pruneWindow 60 now
      (st.rate (client_ip ++ ":" ++ "get_certificate"))).length)
    (htok : st.tokens csrf_token = some T)
    (hfresh : ¬ now - T > 3600)
    (hfind : find_student_by_name_and_id roster name student_id =
      some student)
    (hexists : certificate_exists st.fs (generate_certificate_id prefix_env
      student.student_id (some student.name)) = true)
    (hfraud : check_suspicious_activity parseTs now
      (log_request st.logs nowIso client_ip "get_certificate" student.name
        student.student_id "success" "") client_ip 10 = some v) :
    get_certificate parseTs now nowIso prefix_env output_dir true roster
      client_ip name student_id csrf_token false st =
    (Response.file
       (get_certificate_path output_dir (generate_certificate_id prefix_env
         student.student_id (some student.name)))
       (generate_certificate_id prefix_env student.student_id
         (some student.name) ++ ".pdf"),
     { rate := updateMap st.rate (client_ip ++ ":" ++ "get_certificate")
         (pruneWindow 60 now
           (st.rate (client_ip ++ ":" ++ "get_certificate")) ++ [now]),
       tokens := deleteTok st.tokens csrf_token,
       logs := log_request st.logs nowIso client_ip "get_certificate"
         student.name student.student_id "success" "",
       fs := st.fs, rendered := st.rendered }) := by
  have hcallRate : is_allowed 5 60 st.rate client_ip "get_certificate" now =
      (true, 5 - (pruneWindow 60 now
          (st.rate (client_ip ++ ":" ++ "get_certificate")) ++ [now]).length,
        updateMap st.rate (client_ip ++ ":" ++ "get_certificate")
          (pruneWindow 60 now
            (st.rate (client_ip ++ ":" ++ "get_certificate")) ++ [now])) := by
    simp only [is_allowed]
    rw [if_neg hrate]
  have hcallTok : validate_token st.tokens csrf_token now 3600 =
      (true, deleteTok st.tokens csrf_token) := by
    simp only [validate_token, htok]
    rw [if_neg hfresh]
  simp only [get_certificate, hcallRate, hcallTok, hfind, hexists, hfraud,
    Bool.not_true, Bool.not_false, Bool.false_or, Bool.or_false,
    Bool.false_eq_true, Bool.true_eq_false, if_false, if_true,
    ite_false, ite_true]

/-- C9: the certificate id is derived deterministically from the name alone
(`"Jane Doe"` gives `"Jane_Doe"` whatever the student id), and a second
`GET /certificate` with the same inputs, `force = false` and the PDF already
on disk does not re-invoke the renderer (the render trace and filesystem are
unchanged) and still answers with the file as a logged success. -/
theorem C9_deterministic_id_idempotent_skip (parseTs : String → Option Int)
    (now : Int) (nowIso prefix_env output_dir : String)
    (roster : List Student)
    (client_ip name student_id csrf_token : String) (st : AppState)
    (student : Student) (T : Int)
    (hrate : ¬ 5 ≤ (pruneWindow 60 now
      (st.rate (client_ip ++ ":" ++ "get_certificate"))).length)
    (htok : st.tokens csrf_token = some T)
    (hfresh : ¬ now - T > 3600)
    (hfind : find_student_by_name_and_id roster name student_id =
      some student)
    (hexists : certificate_exists st.fs (generate_certificate_id prefix_env
      student.student_id (some student.name)) = true)
    (hfraud : (check_suspicious_activity parseTs now
      (log_request st.logs nowIso client_ip "get_certificate" student.name
        student.student_id "success" "") client_ip 10).isSome = true) :
    (∀ sid : String,
      generate_certificate_id prefix_env sid (some "Jane Doe") =
        "Jane_Doe") ∧
    (get_certificate parseTs now nowIso prefix_env output_dir true roster
        client_ip name student_id csrf_token false st).1 =
      Response.file
        (get_certificate_path output_dir (generate_certificate_id prefix_env
          student.student_id (some student.name)))
        (generate_certificate_id prefix_env student.student_id
          (some student.name) ++ ".pdf") ∧
    (get_certificate parseTs now nowIso prefix_env output_dir true roster
        client_ip name student_id csrf_token false st).2.rendered =
      st.rendered ∧
    (get_certificate parseTs now nowIso prefix_env output_dir true roster
        client_ip name student_id csrf_token false st).2.fs = st.fs ∧
    (get_certificate parseTs now nowIso prefix_env output_dir true roster
        client_ip name student_id csrf_token false st).2.logs =
      log_request st.logs nowIso client_ip "get_certificate" student.name
        student.student_id "success" "" := by
  obtain ⟨v, hv⟩ := Option.isSome_iff_exists.mp hfraud
  rw [get_certificate_cached parseTs now nowIso prefix_env output_dir
    roster client_ip name student_id csrf_token st student T v hrate htok
    hfresh hfind hexists hv]
  have hjd : sanitizeName "Jane Doe" = "Jane_Doe" := by decide
  refine ⟨?_, rfl, rfl, rfl, rfl⟩
  intro sid
  simp [generate_certificate_id, hjd]

/-- Witness for C9: Jane Doe's certificate is already on disk; a request
with a fresh token and clear rate window streams it without rendering. -/
theorem C9_witness :
    ((¬ 5 ≤ (pruneWindow 60 0
        ((fun _ => ([] : List Int))
          ("1.2.3.4" ++ ":" ++ "get_certificate"))).length) ∧
      ((fun k => if k = "tok" then some (0 : Int) else none) "tok" =
        some 0) ∧
      (¬ (0 : Int) - 0 > 3600) ∧
      (find_student_by_name_and_id
        [{ name := "Jane Doe", student_id := "S123",
           email := "jane@example.com", course := "CS" }]
        "Jane Doe" "S123" =
        some { name := "Jane Doe", student_id := "S123",
               email := "jane@example.com", course := "CS" }) ∧
      (certificate_exists ["Jane_Doe"]
        (generate_certificate_id "CERT" "S123" (some "Jane Doe")) = true)) ∧
    (generate_certificate_id "CERT" "S999" (some "Jane Doe") =
      "Jane_Doe") ∧
    ((get_certificate
        (fun s => if s = "2024-01-01T00:00:00" then some 0 else none) 0
        "2024-01-01T00:00:00" "CERT" "certificates" true
        [{ name := "Jane Doe", student_id := "S123",
           email := "jane@example.com", course := "CS" }]
        "1.2.3.4" "Jane Doe" "S123" "tok" false
        { rate := fun _ => [], tokens := fun k => if k = "tok"
            then some 0 else none,
          logs := some [], fs := ["Jane_Doe"], rendered := [] }).1 =
      Response.file
        (get_certificate_path "certificates"
          (generate_certificate_id "CERT" "S123" (some "Jane Doe")))
        (generate_certificate_id "CERT" "S123" (some "Jane Doe") ++
          ".pdf")) ∧
    ((get_certificate
        (fun s => if s = "2024-01-01T00:00:00" then some 0 else none) 0
        "2024-01-01T00:00:00" "CERT" "certificates" true
        [{ name := "Jane Doe", student_id := "S123",
           email := "jane@example.com", course := "CS" }]
        "1.2.3.4" "Jane Doe" "S123" "tok" false
        { rate := fun _ => [], tokens := fun k => if k = "tok"
            then some 0 else none,
          logs := some [], fs := ["Jane_Doe"], rendered := [] }).2.rendered =
      []) :=
  have h := C9_deterministic_id_idempotent_skip
    (fun s => if s = "2024-01-01T00:00:00" then some 0 else none) 0
    "2024-01-01T00:00:00" "CERT" "certificates"
    [{ name := "Jane Doe", student_id := "S123",
       email := "jane@example.com", course := "CS" }]
    "1.2.3.4" "Jane Doe" "S123" "tok"
    { rate := fun _ => [], tokens := fun k => if k = "tok"
        then some 0 else none,
      logs := some [], fs := ["Jane_Doe"], rendered := [] }
    { name := "Jane Doe", student_id := "S123",
      email := "jane@example.com", course := "CS" } 0
    (by decide) (by decide) (by decide) (by decide) (by decide) (by decide)
  ⟨⟨by decide, by decide, by decide, by decide, by decide⟩,
   h.1 "S999", h.2.1, h.2.2.1⟩

/-- C10: `generate_certificate_id` never reads its `student_id` argument
when the sanitized name is non-empty (equivalently: the name keeps at least
one alphanumeric character), so two roster entries sharing a name map to the
same certificate id and the same PDF path. -/
theorem C10_certificate_id_ignores_student_id
    (prefix_env id1 id2 name output_dir : String)
    (h : sanitizeName name ≠ "") :
    generate_certificate_id prefix_env id1 (some name) =
      generate_certificate_id prefix_env id2 (some name) ∧
    get_certificate_path output_dir
        (generate_certificate_id prefix_env id1 (some name)) =
      get_certificate_path output_dir
        (generate_certificate_id prefix_env id2 (some name)) := by
  have hne : name ≠ "" := fun h0 => h (by rw [h0]; rfl)
  constructor <;> simp [generate_certificate_id, hne, h]

/-- Witness for C10: two distinct student ids with the shared name
`"Jane Doe"` resolve to one certificate id and one PDF path. -/
theorem C10_witness :
    (sanitizeName "Jane Doe" ≠ "") ∧
    (generate_certificate_id "CERT" "S123" (some "Jane Doe") =
       generate_certificate_id "CERT" "S999" (some "Jane Doe") ∧
     get_certificate_path "certificates"
         (generate_certificate_id "CERT" "S123" (some "Jane Doe")) =
       get_certificate_path "certificates"
         (generate_certificate_id "CERT" "S999" (some "Jane Doe"))) :=
  ⟨by decide,
   C10_certificate_id_ignores_student_id "CERT" "S123" "S999" "Jane Doe"
     "certificates" (by decide)⟩

end CertPlatform
